import Mathlib

/-!
# ScalarType

A shallow embedding of `ScalarType.cpp`, the scalar leaf of the type model of
the HIDL interface compiler, together with theorems relating it to its
natural-language specification.

Conventions of the embedding:

* a C++ `static const` table becomes a `List`, and the subscript
  `table[mKind]` becomes `List.getD table mKind.toNat _`, the enumerator being
  converted to its integer value exactly as the C++ subscript does;
* a method that writes to a `Formatter &out` takes the formatter and returns
  the formatter after the writes;
* an out-parameter becomes a component of the returned tuple;
* `handleError`, which lives in the base class, is a parameter of the
  emitting methods.
-/

namespace android

/-! ## Declarations this file depends on -/

/-- Modelled from the spec: the enumeration `ScalarType::Kind` is declared in
the header, which is not part of the sources at hand.  The spec (section 3)
gives its twelve members in their fixed declaration order; the enumerator names
`KIND_INT8` and `KIND_UINT64` are the ones the source uses. -/
inductive Kind where
  | KIND_BOOL
  | KIND_OPAQUE_POINTER
  | KIND_INT8
  | KIND_UINT8
  | KIND_INT16
  | KIND_UINT16
  | KIND_INT32
  | KIND_UINT32
  | KIND_INT64
  | KIND_UINT64
  | KIND_FLOAT
  | KIND_DOUBLE
  deriving DecidableEq

/-- Integer value of an enumerator: its position in the declaration order, as
used by C++ when a `Kind` is compared or used as an array subscript. -/
def Kind.toNat : Kind → Nat
  | KIND_BOOL => 0
  | KIND_OPAQUE_POINTER => 1
  | KIND_INT8 => 2
  | KIND_UINT8 => 3
  | KIND_INT16 => 4
  | KIND_UINT16 => 5
  | KIND_INT32 => 6
  | KIND_UINT32 => 7
  | KIND_INT64 => 8
  | KIND_UINT64 => 9
  | KIND_FLOAT => 10
  | KIND_DOUBLE => 11

/-- The twelve kinds, in declaration order. -/
def Kind.all : List Kind :=
  [Kind.KIND_BOOL, Kind.KIND_OPAQUE_POINTER, Kind.KIND_INT8, Kind.KIND_UINT8,
   Kind.KIND_INT16, Kind.KIND_UINT16, Kind.KIND_INT32, Kind.KIND_UINT32,
   Kind.KIND_INT64, Kind.KIND_UINT64, Kind.KIND_FLOAT, Kind.KIND_DOUBLE]

/-- Modelled from the spec: the class `Formatter` is defined elsewhere.  The
spec describes the sink as an "append-only destination for emitted formatted
text", so a formatter is the text written so far. -/
structure Formatter where
  text : String
  deriving DecidableEq

/-- Modelled from the spec: `out << s` appends `s` to the sink. -/
instance : HShiftLeft Formatter String Formatter where
  hShiftLeft out s := ⟨out.text ++ s⟩

/-- Modelled from the spec: `status_t` with its success value `OK`; the spec
only speaks of "a success status". -/
inductive status_t where
  | OK
  | error (code : Int)
  deriving DecidableEq

/-! ## The class -/

/-- The class `ScalarType`: an immutable wrapper of one `Kind`. -/
structure ScalarType where
  mKind : Kind
  deriving DecidableEq

namespace ScalarType

/-- `ScalarType::isValidEnumStorageType`: only integer types. -/
def isValidEnumStorageType (self : ScalarType) : Bool :=
  decide (self.mKind.toNat ≥ Kind.KIND_INT8.toNat)
    && decide (self.mKind.toNat ≤ Kind.KIND_UINT64.toNat)

/-- The table `kName` of `ScalarType::getCppType`. -/
def getCppType.kName : List String :=
  ["bool", "void *", "int8_t", "uint8_t", "int16_t", "uint16_t",
   "int32_t", "uint32_t", "int64_t", "uint64_t", "float", "double"]

/-- `ScalarType::getCppType(StorageMode, std::string *extra, bool)`.  The
storage mode and the flag are unnamed in the source.  Returns the result
together with the content of `*extra` after the call (`extra->clear()`). -/
def getCppType {StorageMode : Type} (self : ScalarType) (_ : StorageMode)
    (_extra : String) (_ : Bool) : String × String :=
  let extra := ""
  (getCppType.kName.getD self.mKind.toNat "", extra)

/-- Modelled from the spec: the one-argument overload `Type::getCppType(extra)`
of the base class is not part of the sources at hand.  The spec calls what it
yields "this type's native type"; it forwards to the virtual method above with
a storage mode and flag of its own choosing, which that method ignores. -/
def Type_getCppType (self : ScalarType) (extra : String) : String × String :=
  self.getCppType () extra false

/-- The table `kName` of `ScalarType::getJavaType`. -/
def getJavaType.kName : List String :=
  ["boolean", "long", "byte", "byte", "short", "short",
   "int", "int", "long", "long", "float", "double"]

/-- `ScalarType::getJavaType`. -/
def getJavaType (self : ScalarType) : String :=
  getJavaType.kName.getD self.mKind.toNat ""

/-- The table `kName` of `ScalarType::getJavaWrapperType`. -/
def getJavaWrapperType.kName : List String :=
  ["Boolean", "Long", "Byte", "Byte", "Short", "Short",
   "Int", "Int", "Long", "Long", "Float", "Double"]

/-- `ScalarType::getJavaWrapperType`. -/
def getJavaWrapperType (self : ScalarType) : String :=
  getJavaWrapperType.kName.getD self.mKind.toNat ""

/-- The table `kSuffix` of `ScalarType::getJavaSuffix`. -/
def getJavaSuffix.kSuffix : List String :=
  ["Bool", "Pointer", "Int8", "Int8", "Int16", "Int16",
   "Int32", "Int32", "Int64", "Int64", "Float", "Double"]

/-- `ScalarType::getJavaSuffix`. -/
def getJavaSuffix (self : ScalarType) : String :=
  getJavaSuffix.kSuffix.getD self.mKind.toNat ""

/-- The table `kSuffix` of `ScalarType::emitReaderWriterWithCast`. -/
def emitReaderWriterWithCast.kSuffix : List String :=
  ["Bool", "Pointer", "Int8", "Uint8", "Int16", "Uint16",
   "Int32", "Uint32", "Int64", "Uint64", "Float", "Double"]

/-- `ScalarType::emitReaderWriterWithCast`.  `handleError` is the base-class
method called last. -/
def emitReaderWriterWithCast {ErrorMode : Type}
    (handleError : Formatter → ErrorMode → Formatter)
    (self : ScalarType) (out : Formatter) (name parcelObj : String)
    (parcelObjIsPointer isReader : Bool) (mode : ErrorMode)
    (needsCast : Bool) : Formatter :=
  let parcelObjDeref := parcelObj ++ (if parcelObjIsPointer then "->" else ".")
  let out := out <<< "_hidl_err = "
    <<< parcelObjDeref
    <<< (if isReader then "read" else "write")
    <<< emitReaderWriterWithCast.kSuffix.getD self.mKind.toNat ""
    <<< "("
  let out :=
    if needsCast then
      let extra := ""
      out <<< "("
        <<< (self.Type_getCppType extra).1
        <<< (if isReader then " *)" else ")")
    else out
  let out := if isReader then out <<< "&" else out
  let out := out <<< name
    <<< ");\n"
  handleError out mode

/-- `ScalarType::emitReaderWriter`. -/
def emitReaderWriter {ErrorMode : Type}
    (handleError : Formatter → ErrorMode → Formatter)
    (self : ScalarType) (out : Formatter) (name parcelObj : String)
    (parcelObjIsPointer isReader : Bool) (mode : ErrorMode) : Formatter :=
  self.emitReaderWriterWithCast handleError out name parcelObj
    parcelObjIsPointer isReader mode false

/-- `ScalarType::emitJavaFieldReaderWriter`. -/
def emitJavaFieldReaderWriter (self : ScalarType) (out : Formatter)
    (blobName fieldName offset : String) (isReader : Bool) : Formatter :=
  if isReader then
    out <<< fieldName
      <<< " = "
      <<< blobName
      <<< ".get"
      <<< self.getJavaSuffix
      <<< "("
      <<< offset
      <<< ");\n"
  else
    out <<< blobName
      <<< ".put"
      <<< self.getJavaSuffix
      <<< "("
      <<< offset
      <<< ", "
      <<< fieldName
      <<< ");\n"

/-- The table `kName` of `ScalarType::emitVtsTypeDeclarations`. -/
def emitVtsTypeDeclarations.kName : List String :=
  ["bool_t", "opaque", "int8_t", "uint8_t", "int16_t", "uint16_t",
   "int32_t", "uint32_t", "int64_t", "uint64_t", "float_t", "double_t"]

/-- `ScalarType::emitVtsTypeDeclarations`: the returned status and the
formatter after the writes. -/
def emitVtsTypeDeclarations (self : ScalarType) (out : Formatter) :
    status_t × Formatter :=
  let out := out <<< "type: TYPE_SCALAR\n" <<< "scalar_type: \""
    <<< emitVtsTypeDeclarations.kName.getD self.mKind.toNat "" <<< "\"\n"
  (status_t.OK, out)

/-- The table `kAlign` of `ScalarType::getAlignmentAndSize`. -/
def getAlignmentAndSize.kAlign : List Nat :=
  [1, 8, 1, 1, 2, 2, 4, 4, 8, 8, 4, 8]

/-- `ScalarType::getAlignmentAndSize`: the values written to `*align` and
`*size`, in this order. -/
def getAlignmentAndSize (self : ScalarType) : Nat × Nat :=
  let size := getAlignmentAndSize.kAlign.getD self.mKind.toNat 0
  let align := size
  (align, size)

/-- `ScalarType::getKind`. -/
def getKind (self : ScalarType) : Kind :=
  self.mKind

end ScalarType

/-! ## Specification-side definitions

These follow the wording of the specification, not the source; the theorems
below compare them with the embedding of the source. -/

namespace Spec

/-- Alignment and size per kind, as the specification tabulates them. -/
def alignmentAndSize : Kind → Nat × Nat
  | .KIND_BOOL | .KIND_INT8 | .KIND_UINT8 => (1, 1)
  | .KIND_INT16 | .KIND_UINT16 => (2, 2)
  | .KIND_INT32 | .KIND_UINT32 | .KIND_FLOAT => (4, 4)
  | .KIND_INT64 | .KIND_UINT64 | .KIND_DOUBLE | .KIND_OPAQUE_POINTER => (8, 8)

/-- Serialization suffix per kind, as the specification lists them. -/
def serializationSuffix : Kind → String
  | .KIND_BOOL => "Bool"
  | .KIND_OPAQUE_POINTER => "Pointer"
  | .KIND_INT8 => "Int8"
  | .KIND_UINT8 => "Uint8"
  | .KIND_INT16 => "Int16"
  | .KIND_UINT16 => "Uint16"
  | .KIND_INT32 => "Int32"
  | .KIND_UINT32 => "Uint32"
  | .KIND_INT64 => "Int64"
  | .KIND_UINT64 => "Uint64"
  | .KIND_FLOAT => "Float"
  | .KIND_DOUBLE => "Double"

/-- Native type name per kind, as the specification lists them. -/
def nativeTypeName : Kind → String
  | .KIND_BOOL => "bool"
  | .KIND_OPAQUE_POINTER => "void *"
  | .KIND_INT8 => "int8_t"
  | .KIND_UINT8 => "uint8_t"
  | .KIND_INT16 => "int16_t"
  | .KIND_UINT16 => "uint16_t"
  | .KIND_INT32 => "int32_t"
  | .KIND_UINT32 => "uint32_t"
  | .KIND_INT64 => "int64_t"
  | .KIND_UINT64 => "uint64_t"
  | .KIND_FLOAT => "float"
  | .KIND_DOUBLE => "double"

/-- The serialization statement: container, dereference or dot, `read` or
`write`, suffix, opening parenthesis, the text `cast` standing before the
value argument, address-of when reading, the value name, and the closing. -/
def serializationStatement (k : Kind) (name parcelObj : String)
    (parcelObjIsPointer isReader : Bool) (cast : String) : String :=
  "_hidl_err = " ++ parcelObj ++ (if parcelObjIsPointer then "->" else ".")
    ++ (if isReader then "read" else "write") ++ serializationSuffix k ++ "("
    ++ cast ++ (if isReader then "&" else "") ++ name ++ ");\n"

/-- The explicit cast to the native type: pointer-qualified when reading. -/
def castText (T : String) (isReader : Bool) : String :=
  if isReader then "(" ++ T ++ " *)" else "(" ++ T ++ ")"

/-- Test-spec scalar name per kind, as the specification lists them. -/
def testSpecName : Kind → String
  | .KIND_BOOL => "bool_t"
  | .KIND_OPAQUE_POINTER => "opaque"
  | .KIND_INT8 => "int8_t"
  | .KIND_UINT8 => "uint8_t"
  | .KIND_INT16 => "int16_t"
  | .KIND_UINT16 => "uint16_t"
  | .KIND_INT32 => "int32_t"
  | .KIND_UINT32 => "uint32_t"
  | .KIND_INT64 => "int64_t"
  | .KIND_UINT64 => "uint64_t"
  | .KIND_FLOAT => "float_t"
  | .KIND_DOUBLE => "double_t"

/-- Boxed form of a primitive of the managed language: the reference map
boolean→Boolean, byte→Byte, short→Short, int→Integer, long→Long, float→Float,
double→Double. -/
def box (primitive : String) : Option String :=
  if primitive = "boolean" then some "Boolean"
  else if primitive = "byte" then some "Byte"
  else if primitive = "short" then some "Short"
  else if primitive = "int" then some "Integer"
  else if primitive = "long" then some "Long"
  else if primitive = "float" then some "Float"
  else if primitive = "double" then some "Double"
  else none

/-- Width in bytes of a primitive of the managed language: byte 1, short 2,
int 4, long 8, float 4, double 8.  No width is given for `boolean`. -/
def javaWidth (primitive : String) : Option Nat :=
  if primitive = "byte" then some 1
  else if primitive = "short" then some 2
  else if primitive = "int" then some 4
  else if primitive = "long" then some 8
  else if primitive = "float" then some 4
  else if primitive = "double" then some 8
  else none

end Spec

/-! ## Basic facts -/

/-- Effect of one write on the text of the formatter. -/
@[simp] theorem Formatter.text_write (out : Formatter) (s : String) :
    (out <<< s).text = out.text ++ s := rfl

/-- Version of `Formatter.text_write` on the structure itself. -/
theorem Formatter.write_eq (out : Formatter) (s : String) :
    out <<< s = ⟨out.text ++ s⟩ := rfl

/-- Two successive writes are one write of the concatenation. -/
theorem Formatter.write_write (out : Formatter) (s t : String) :
    out <<< s <<< t = out <<< (s ++ t) := by
  simp [Formatter.write_eq, String.append_assoc]

open ScalarType Kind

/-- The serialization table of the source agrees with the suffixes the
specification lists. -/
theorem kSuffix_getD (k : Kind) :
    emitReaderWriterWithCast.kSuffix.getD k.toNat "" = Spec.serializationSuffix k := by
  cases k <;> rfl

/-- The statement written by `emitReaderWriterWithCast`, before `handleError`
runs, in terms of the specification-side text. -/
theorem emitReaderWriterWithCast_eq {ErrorMode : Type}
    (handleError : Formatter → ErrorMode → Formatter) (k : Kind) (out : Formatter)
    (name parcelObj : String) (parcelObjIsPointer isReader : Bool) (mode : ErrorMode)
    (needsCast : Bool) :
    emitReaderWriterWithCast handleError ⟨k⟩ out name parcelObj parcelObjIsPointer
        isReader mode needsCast
      = handleError
          (out <<< Spec.serializationStatement k name parcelObj parcelObjIsPointer isReader
            (if needsCast then Spec.castText (getCppType ⟨k⟩ () "" false).1 isReader
              else "")) mode := by
  unfold emitReaderWriterWithCast
  rw [kSuffix_getD]
  refine congrArg (fun o => handleError o mode) ?_
  cases parcelObjIsPointer <;> cases isReader <;> cases needsCast <;>
    simp [Spec.serializationStatement, Spec.castText, Type_getCppType,
      Formatter.write_eq, String.ext_iff]

/-- The result of `getCppType` does not depend on the storage mode, on the
prior content of `extra`, or on the flag. -/
theorem getCppType_fst {StorageMode : Type} (k : Kind) (sm : StorageMode)
    (extra : String) (flag : Bool) :
    (getCppType ⟨k⟩ sm extra flag).1 = (getCppType ⟨k⟩ () "" false).1 := rfl

/-- The suffix is what stands before the first opening parenthesis. -/
theorem serializationSuffix_takeWhile (k : Kind) (x : List Char) :
    ((Spec.serializationSuffix k).data ++ '(' :: x).takeWhile (fun c => c != '(')
      = (Spec.serializationSuffix k).data := by
  cases k <;> simp [Spec.serializationSuffix, List.takeWhile]

/-- Distinct kinds have distinct serialization suffixes. -/
theorem serializationSuffix_injective (k1 k2 : Kind)
    (h : Spec.serializationSuffix k1 = Spec.serializationSuffix k2) : k1 = k2 := by
  revert h
  cases k1 <;> cases k2 <;> decide

/-- Two serialization statements for distinct kinds differ, whatever follows
them. -/
theorem serializationStatement_ne (k1 k2 : Kind) (hne : k1 ≠ k2)
    (name parcelObj : String) (parcelObjIsPointer isReader : Bool)
    (c1 c2 f1 f2 : String) :
    Spec.serializationStatement k1 name parcelObj parcelObjIsPointer isReader c1 ++ f1
      ≠ Spec.serializationStatement k2 name parcelObj parcelObjIsPointer isReader c2 ++ f2 := by
  intro h
  apply hne
  apply serializationSuffix_injective
  have hd := congrArg String.data h
  simp only [Spec.serializationStatement, String.data_append, List.append_assoc,
    List.append_cancel_left_eq] at hd
  have ht := congrArg (List.takeWhile (fun c => c != '(')) hd
  simp only [List.singleton_append, serializationSuffix_takeWhile] at ht
  exact String.ext ht

/-! ## The claims -/

/-- C1. `isValidEnumStorageType` holds exactly for the eight integer kinds
INT8, UINT8, INT16, UINT16, INT32, UINT32, INT64, UINT64, and fails exactly for
BOOL, OPAQUE_POINTER, FLOAT and DOUBLE. -/
theorem isValidEnumStorageType_iff_integer (k : Kind) :
    ((ScalarType.mk k).isValidEnumStorageType = true ↔
      k ∈ [KIND_INT8, KIND_UINT8, KIND_INT16, KIND_UINT16,
           KIND_INT32, KIND_UINT32, KIND_INT64, KIND_UINT64])
    ∧ ((ScalarType.mk k).isValidEnumStorageType = false ↔
      k ∈ [KIND_BOOL, KIND_OPAQUE_POINTER, KIND_FLOAT, KIND_DOUBLE]) := by
  cases k <;> decide

/-- C2. `getAlignmentAndSize` writes the same value to `align` and to `size`:
1 for BOOL, INT8, UINT8; 2 for INT16, UINT16; 4 for INT32, UINT32, FLOAT; 8 for
INT64, UINT64, DOUBLE, OPAQUE_POINTER. -/
theorem getAlignmentAndSize_eq_spec (k : Kind) :
    (ScalarType.mk k).getAlignmentAndSize.1 = (ScalarType.mk k).getAlignmentAndSize.2
    ∧ (ScalarType.mk k).getAlignmentAndSize = Spec.alignmentAndSize k := by
  cases k <;> decide

/-- C3. `emitReaderWriter` appends to the sink exactly the statement
`_hidl_err = <p><-> or .><read or write><suffix>(<& when reading><n>);` and a
newline, with no cast, and then runs `handleError` for the mode; the suffixes
are Bool, Pointer, Int8, Uint8, Int16, Uint16, Int32, Uint32, Int64, Uint64,
Float, Double in enumeration order.  For INT32 read from `parcel`, not a
pointer, the statement is `_hidl_err = parcel.readInt32(&n);`. -/
theorem emitReaderWriter_appends_statement {ErrorMode : Type}
    (handleError : Formatter → ErrorMode → Formatter) (k : Kind) (out : Formatter)
    (n p : String) (parcelObjIsPointer isReader : Bool) (m : ErrorMode) :
    emitReaderWriter handleError ⟨k⟩ out n p parcelObjIsPointer isReader m
      = handleError
          (out <<< ("_hidl_err = " ++ p ++ (if parcelObjIsPointer then "->" else ".")
            ++ (if isReader then "read" else "write") ++ Spec.serializationSuffix k ++ "("
            ++ (if isReader then "&" else "") ++ n ++ ");\n")) m
    ∧ emitReaderWriter handleError ⟨KIND_INT32⟩ out "n" "parcel" false true m
      = handleError (out <<< "_hidl_err = parcel.readInt32(&n);\n") m := by
  constructor
  · rw [emitReaderWriter, emitReaderWriterWithCast_eq]
    refine congrArg (fun o => handleError o _) ?_
    simp [Spec.serializationStatement, Formatter.write_eq, String.ext_iff]
  · rw [emitReaderWriter, emitReaderWriterWithCast_eq]
    rfl

/-- C4. With `needsCast` set, `emitReaderWriterWithCast` emits the statement of
the cast-free call with a cast to the native type name `T = getCppType(k)`
inserted between the opening parenthesis and the value argument: `(T *)` when
reading, so that the argument reads `(T *)&name`, and `(T)` when writing, so
that it reads `(T)name`.  With `needsCast` clear no cast text is emitted. -/
theorem emitReaderWriterWithCast_cast {ErrorMode StorageMode : Type}
    (handleError : Formatter → ErrorMode → Formatter) (k : Kind) (out : Formatter)
    (name parcelObj : String) (parcelObjIsPointer isReader : Bool) (mode : ErrorMode)
    (sm : StorageMode) (extra : String) (flag : Bool) :
    emitReaderWriterWithCast handleError ⟨k⟩ out name parcelObj parcelObjIsPointer
        isReader mode true
      = handleError
          (out <<< ("_hidl_err = " ++ parcelObj ++ (if parcelObjIsPointer then "->" else ".")
            ++ (if isReader then "read" else "write") ++ Spec.serializationSuffix k ++ "("
            ++ (if isReader then "(" ++ (getCppType ⟨k⟩ sm extra flag).1 ++ " *)"
                else "(" ++ (getCppType ⟨k⟩ sm extra flag).1 ++ ")")
            ++ (if isReader then "&" else "") ++ name ++ ");\n")) mode
    ∧ emitReaderWriterWithCast handleError ⟨k⟩ out name parcelObj parcelObjIsPointer
        isReader mode false
      = handleError
          (out <<< ("_hidl_err = " ++ parcelObj ++ (if parcelObjIsPointer then "->" else ".")
            ++ (if isReader then "read" else "write") ++ Spec.serializationSuffix k ++ "("
            ++ (if isReader then "&" else "") ++ name ++ ");\n")) mode := by
  constructor
  · rw [emitReaderWriterWithCast_eq, getCppType_fst k sm extra flag]
    refine congrArg (fun o => handleError o _) ?_
    cases isReader <;>
      simp [Spec.serializationStatement, Spec.castText, Formatter.write_eq, String.ext_iff]
  · rw [emitReaderWriterWithCast_eq]
    refine congrArg (fun o => handleError o _) ?_
    simp [Spec.serializationStatement, Formatter.write_eq, String.ext_iff]

/-- C5. The serialization call tells the kinds apart: for distinct kinds and
otherwise equal arguments, and `handleError` only appending to the sink,
`emitReaderWriterWithCast` leaves different texts in the sink; the twelve
serialization suffixes are pairwise distinct and none is a prefix of another.
Writing UINT8 emits a `writeUint8(` call that passes the value without
address-of, where INT8 emits `writeInt8(`, although `getJavaSuffix` is the same
for both. -/
theorem emitReaderWriterWithCast_kind_injective {ErrorMode : Type}
    (handleError : Formatter → ErrorMode → Formatter)
    (happend : ∀ out mode, ∃ frag : String, handleError out mode = out <<< frag)
    (k1 k2 : Kind) (hne : k1 ≠ k2) (out : Formatter) (name parcelObj : String)
    (parcelObjIsPointer isReader : Bool) (mode : ErrorMode) (needsCast : Bool) :
    emitReaderWriterWithCast handleError ⟨k1⟩ out name parcelObj parcelObjIsPointer
        isReader mode needsCast
      ≠ emitReaderWriterWithCast handleError ⟨k2⟩ out name parcelObj parcelObjIsPointer
        isReader mode needsCast
    ∧ emitReaderWriterWithCast.kSuffix.getD k1.toNat ""
      ≠ emitReaderWriterWithCast.kSuffix.getD k2.toNat ""
    ∧ ¬ (emitReaderWriterWithCast.kSuffix.getD k1.toNat "").data
        <+: (emitReaderWriterWithCast.kSuffix.getD k2.toNat "").data
    ∧ emitReaderWriterWithCast handleError ⟨KIND_UINT8⟩ out name parcelObj
        parcelObjIsPointer false mode false
      = handleError (out <<< ("_hidl_err = " ++ parcelObj
          ++ (if parcelObjIsPointer then "->" else ".") ++ "writeUint8(" ++ name ++ ");\n")) mode
    ∧ emitReaderWriterWithCast handleError ⟨KIND_INT8⟩ out name parcelObj
        parcelObjIsPointer false mode false
      = handleError (out <<< ("_hidl_err = " ++ parcelObj
          ++ (if parcelObjIsPointer then "->" else ".") ++ "writeInt8(" ++ name ++ ");\n")) mode
    ∧ (ScalarType.mk KIND_UINT8).getJavaSuffix = (ScalarType.mk KIND_INT8).getJavaSuffix := by
  refine ⟨?_, ?_, ?_, ?_, ?_, rfl⟩
  · rw [emitReaderWriterWithCast_eq, emitReaderWriterWithCast_eq]
    obtain ⟨f1, hf1⟩ := happend (out <<< Spec.serializationStatement k1 name parcelObj
      parcelObjIsPointer isReader
      (if needsCast then Spec.castText (getCppType ⟨k1⟩ () "" false).1 isReader else "")) mode
    obtain ⟨f2, hf2⟩ := happend (out <<< Spec.serializationStatement k2 name parcelObj
      parcelObjIsPointer isReader
      (if needsCast then Spec.castText (getCppType ⟨k2⟩ () "" false).1 isReader else "")) mode
    rw [hf1, hf2]
    intro h
    have ht := congrArg Formatter.text h
    simp only [Formatter.text_write, String.append_assoc] at ht
    have hd := congrArg String.data ht
    simp only [String.data_append, List.append_cancel_left_eq] at hd
    apply serializationStatement_ne k1 k2 hne name parcelObj parcelObjIsPointer isReader
      (if needsCast then Spec.castText (getCppType ⟨k1⟩ () "" false).1 isReader else "")
      (if needsCast then Spec.castText (getCppType ⟨k2⟩ () "" false).1 isReader else "")
      f1 f2
    apply String.ext
    simpa only [String.data_append] using hd
  · revert hne
    cases k1 <;> cases k2 <;> decide
  · revert hne
    cases k1 <;> cases k2 <;> decide
  · rw [emitReaderWriterWithCast_eq]
    refine congrArg (fun o => handleError o _) ?_
    simp [Spec.serializationStatement, Spec.serializationSuffix, Formatter.write_eq,
      String.ext_iff]
  · rw [emitReaderWriterWithCast_eq]
    refine congrArg (fun o => handleError o _) ?_
    simp [Spec.serializationStatement, Spec.serializationSuffix, Formatter.write_eq,
      String.ext_iff]

/-- Witness of C5: INT8 against UINT8 with a `handleError` appending `E`. -/
theorem emitReaderWriterWithCast_kind_injective_witness :
    (∀ (out : Formatter) (mode : Unit), ∃ frag : String,
        (fun (o : Formatter) (_ : Unit) => o <<< "E") out mode = out <<< frag)
    ∧ KIND_INT8 ≠ KIND_UINT8
    ∧ emitReaderWriterWithCast (fun (o : Formatter) (_ : Unit) => o <<< "E")
        ⟨KIND_INT8⟩ ⟨""⟩ "v" "parcel" true false () false
      ≠ emitReaderWriterWithCast (fun (o : Formatter) (_ : Unit) => o <<< "E")
        ⟨KIND_UINT8⟩ ⟨""⟩ "v" "parcel" true false () false :=
  ⟨fun _ _ => ⟨"E", rfl⟩, by decide,
    (emitReaderWriterWithCast_kind_injective (fun (o : Formatter) (_ : Unit) => o <<< "E")
      (fun _ _ => ⟨"E", rfl⟩) KIND_INT8 KIND_UINT8 (by decide) ⟨""⟩ "v" "parcel"
      true false () false).1⟩

/-- C6. `emitJavaFieldReaderWriter` appends exactly
`<f> = <b>.get<suffix>(<o>);` and a newline when reading, and exactly
`<b>.put<suffix>(<o>, <f>);` and a newline when writing, the suffix being
`getJavaSuffix`; for INT16 these are `f = b.getInt16(o);` and
`b.putInt16(o, f);`. -/
theorem emitJavaFieldReaderWriter_appends (k : Kind) (out : Formatter)
    (b f o : String) :
    emitJavaFieldReaderWriter ⟨k⟩ out b f o true
      = out <<< (f ++ " = " ++ b ++ ".get" ++ (ScalarType.mk k).getJavaSuffix
          ++ "(" ++ o ++ ");\n")
    ∧ emitJavaFieldReaderWriter ⟨k⟩ out b f o false
      = out <<< (b ++ ".put" ++ (ScalarType.mk k).getJavaSuffix
          ++ "(" ++ o ++ ", " ++ f ++ ");\n")
    ∧ emitJavaFieldReaderWriter ⟨KIND_INT16⟩ out "b" "f" "o" true
      = out <<< "f = b.getInt16(o);\n"
    ∧ emitJavaFieldReaderWriter ⟨KIND_INT16⟩ out "b" "f" "o" false
      = out <<< "b.putInt16(o, f);\n" := by
  refine ⟨?_, ?_, ?_, ?_⟩ <;>
    simp [emitJavaFieldReaderWriter, Formatter.write_eq, String.ext_iff] <;> rfl

/-- C7, as the specification words it, fails: for BOOL written to an empty
sink the text is `type: TYPE_SCALAR`, not `type: SCALAR`, followed by
`scalar_type: "bool_t"`. -/
theorem emitVtsTypeDeclarations_not_type_SCALAR :
    (emitVtsTypeDeclarations ⟨KIND_BOOL⟩ ⟨""⟩).2
      = ⟨"type: TYPE_SCALAR\nscalar_type: \"bool_t\"\n"⟩
    ∧ (emitVtsTypeDeclarations ⟨KIND_BOOL⟩ ⟨""⟩).2
      ≠ (Formatter.mk "")
          <<< ("type: SCALAR\nscalar_type: \"" ++ Spec.testSpecName KIND_BOOL ++ "\"\n") := by
  decide

/-- C7, amended. `emitVtsTypeDeclarations` appends to the sink exactly the line
`type: TYPE_SCALAR` followed by the line `scalar_type: "<name>"`, where the
name is the test-spec name of the kind: bool_t, opaque, int8_t, uint8_t,
int16_t, uint16_t, int32_t, uint32_t, int64_t, uint64_t, float_t, double_t in
enumeration order. -/
theorem emitVtsTypeDeclarations_appends (k : Kind) (out : Formatter) :
    (emitVtsTypeDeclarations ⟨k⟩ out).2
      = out <<< ("type: TYPE_SCALAR\nscalar_type: \"" ++ Spec.testSpecName k ++ "\"\n") := by
  cases k <;>
    simp [emitVtsTypeDeclarations, emitVtsTypeDeclarations.kName, Kind.toNat,
      Spec.testSpecName, Formatter.write_eq, String.ext_iff]

/-- C8. `getJavaSuffix` collapses signedness: for each width 8, 16, 32, 64 the
unsigned kind has the suffix of the signed kind; the values it takes over the
twelve kinds are exactly Bool, Pointer, Int8, Int16, Int32, Int64, Float,
Double; and it differs from the serialization suffix of the kind exactly for
UINT8, UINT16, UINT32 and UINT64. -/
theorem getJavaSuffix_collapses_signedness (k : Kind) (s : String) :
    (ScalarType.mk KIND_UINT8).getJavaSuffix = (ScalarType.mk KIND_INT8).getJavaSuffix
    ∧ (ScalarType.mk KIND_UINT16).getJavaSuffix = (ScalarType.mk KIND_INT16).getJavaSuffix
    ∧ (ScalarType.mk KIND_UINT32).getJavaSuffix = (ScalarType.mk KIND_INT32).getJavaSuffix
    ∧ (ScalarType.mk KIND_UINT64).getJavaSuffix = (ScalarType.mk KIND_INT64).getJavaSuffix
    ∧ ((∃ k' : Kind, (ScalarType.mk k').getJavaSuffix = s) ↔
        s ∈ ["Bool", "Pointer", "Int8", "Int16", "Int32", "Int64", "Float", "Double"])
    ∧ ((ScalarType.mk k).getJavaSuffix ≠ emitReaderWriterWithCast.kSuffix.getD k.toNat "" ↔
        k ∈ [KIND_UINT8, KIND_UINT16, KIND_UINT32, KIND_UINT64]) := by
  refine ⟨rfl, rfl, rfl, rfl, ⟨?_, ?_⟩, ?_⟩
  · rintro ⟨k', rfl⟩
    cases k' <;> decide
  · intro hs
    simp only [List.mem_cons, List.mem_singleton, List.not_mem_nil, or_false] at hs
    rcases hs with h | h | h | h | h | h | h | h
    · exact ⟨KIND_BOOL, h ▸ rfl⟩
    · exact ⟨KIND_OPAQUE_POINTER, h ▸ rfl⟩
    · exact ⟨KIND_INT8, h ▸ rfl⟩
    · exact ⟨KIND_INT16, h ▸ rfl⟩
    · exact ⟨KIND_INT32, h ▸ rfl⟩
    · exact ⟨KIND_INT64, h ▸ rfl⟩
    · exact ⟨KIND_FLOAT, h ▸ rfl⟩
    · exact ⟨KIND_DOUBLE, h ▸ rfl⟩
  · cases k <;> decide

/-- C9. The narrowing policy of the managed backend: UINT8 and INT8 have the
same `getJavaType` and the same `getJavaWrapperType`, and so have UINT16 and
INT16; the shared primitives are `byte` and `short`, the shared boxed forms
`Byte` and `Short`. -/
theorem getJavaType_narrow_unsigned_eq_signed :
    (ScalarType.mk KIND_UINT8).getJavaType = (ScalarType.mk KIND_INT8).getJavaType
    ∧ (ScalarType.mk KIND_UINT16).getJavaType = (ScalarType.mk KIND_INT16).getJavaType
    ∧ (ScalarType.mk KIND_UINT8).getJavaWrapperType
        = (ScalarType.mk KIND_INT8).getJavaWrapperType
    ∧ (ScalarType.mk KIND_UINT16).getJavaWrapperType
        = (ScalarType.mk KIND_INT16).getJavaWrapperType
    ∧ (ScalarType.mk KIND_INT8).getJavaType = "byte"
    ∧ (ScalarType.mk KIND_INT16).getJavaType = "short"
    ∧ (ScalarType.mk KIND_INT8).getJavaWrapperType = "Byte"
    ∧ (ScalarType.mk KIND_INT16).getJavaWrapperType = "Short" := by
  decide

/-- C10, at the failing kinds. For INT32 and UINT32 `getJavaType` is `int`,
whose boxed form is `Integer`, while `getJavaWrapperType` returns `Int`; for
every other kind `getJavaWrapperType` is the boxed form of `getJavaType`. -/
theorem getJavaWrapperType_int_is_not_boxed (k : Kind) :
    (ScalarType.mk KIND_INT32).getJavaType = "int"
    ∧ (ScalarType.mk KIND_UINT32).getJavaType = "int"
    ∧ Spec.box "int" = some "Integer"
    ∧ (ScalarType.mk KIND_INT32).getJavaWrapperType = "Int"
    ∧ (ScalarType.mk KIND_UINT32).getJavaWrapperType = "Int"
    ∧ (Spec.box (ScalarType.mk k).getJavaType = some (ScalarType.mk k).getJavaWrapperType ↔
        k ∉ [KIND_INT32, KIND_UINT32]) := by
  cases k <;> decide

/-- C11. Each of the seven per-kind tables (native type name, Java type, Java
wrapper type, Java accessor suffix, serialization suffix, test-spec name,
alignment) has exactly twelve entries, the integer value of every kind is below
twelve, so that the subscript by a kind is in bounds in every table, and no
entry of the six string tables is the empty string. -/
theorem tables_have_twelve_entries (k : Kind) :
    (getCppType.kName.length = 12
      ∧ getJavaType.kName.length = 12
      ∧ getJavaWrapperType.kName.length = 12
      ∧ getJavaSuffix.kSuffix.length = 12
      ∧ emitReaderWriterWithCast.kSuffix.length = 12
      ∧ emitVtsTypeDeclarations.kName.length = 12
      ∧ getAlignmentAndSize.kAlign.length = 12)
    ∧ k.toNat < 12
    ∧ (getCppType.kName[k.toNat]?.isSome = true
      ∧ getJavaType.kName[k.toNat]?.isSome = true
      ∧ getJavaWrapperType.kName[k.toNat]?.isSome = true
      ∧ getJavaSuffix.kSuffix[k.toNat]?.isSome = true
      ∧ emitReaderWriterWithCast.kSuffix[k.toNat]?.isSome = true
      ∧ emitVtsTypeDeclarations.kName[k.toNat]?.isSome = true
      ∧ getAlignmentAndSize.kAlign[k.toNat]?.isSome = true)
    ∧ ("" ∉ getCppType.kName
      ∧ "" ∉ getJavaType.kName
      ∧ "" ∉ getJavaWrapperType.kName
      ∧ "" ∉ getJavaSuffix.kSuffix
      ∧ "" ∉ emitReaderWriterWithCast.kSuffix
      ∧ "" ∉ emitVtsTypeDeclarations.kName) := by
  refine ⟨by decide, ?_, ?_, by decide⟩
  · cases k <;> decide
  · cases k <;> decide

/-- C12. The native type name is kind-specific: `getCppType` returns for each
kind its one name among bool, void *, int8_t, uint8_t, int16_t, uint16_t,
int32_t, uint32_t, int64_t, uint64_t, float, double, and two kinds receive the
same name only if they are the same kind. -/
theorem getCppType_injective {StorageMode : Type} (k1 k2 : Kind)
    (sm1 sm2 : StorageMode) (extra1 extra2 : String) (flag1 flag2 : Bool) :
    (getCppType ⟨k1⟩ sm1 extra1 flag1).1 = Spec.nativeTypeName k1
    ∧ ((getCppType ⟨k1⟩ sm1 extra1 flag1).1 = (getCppType ⟨k2⟩ sm2 extra2 flag2).1
        ↔ k1 = k2) := by
  constructor
  · cases k1 <;> rfl
  · constructor
    · rw [getCppType_fst k1 sm1 extra1 flag1, getCppType_fst k2 sm2 extra2 flag2]
      cases k1 <;> cases k2 <;> decide
    · rintro rfl
      rfl

/-- C13. The test-spec scalar name is a namespace of its own: the declaration
emitted for a kind carries the entry of the test-spec table; for DOUBLE it
carries `double_t` and for BOOL `bool_t`, which is not the native type name
`bool`; and for every kind the test-spec name equals the native type name
returned by `getCppType` exactly when `isValidEnumStorageType` holds. -/
theorem vts_name_eq_cpp_name_iff_integer {StorageMode : Type} (k : Kind)
    (out : Formatter) (sm : StorageMode) (extra : String) (flag : Bool) :
    (emitVtsTypeDeclarations ⟨k⟩ out).2
      = out <<< ("type: TYPE_SCALAR\nscalar_type: \""
          ++ emitVtsTypeDeclarations.kName.getD k.toNat "" ++ "\"\n")
    ∧ (emitVtsTypeDeclarations ⟨KIND_DOUBLE⟩ out).2
      = out <<< "type: TYPE_SCALAR\nscalar_type: \"double_t\"\n"
    ∧ (emitVtsTypeDeclarations ⟨KIND_BOOL⟩ out).2
      = out <<< "type: TYPE_SCALAR\nscalar_type: \"bool_t\"\n"
    ∧ emitVtsTypeDeclarations.kName.getD KIND_BOOL.toNat "" = "bool_t"
    ∧ (getCppType ⟨KIND_BOOL⟩ sm extra flag).1 = "bool"
    ∧ emitVtsTypeDeclarations.kName.getD KIND_BOOL.toNat ""
        ≠ (getCppType ⟨KIND_BOOL⟩ sm extra flag).1
    ∧ (emitVtsTypeDeclarations.kName.getD k.toNat "" = (getCppType ⟨k⟩ sm extra flag).1
        ↔ (ScalarType.mk k).isValidEnumStorageType = true) := by
  refine ⟨?_, ?_, ?_, rfl, rfl, ?_, ?_⟩
  · simp [emitVtsTypeDeclarations, Formatter.write_eq, String.ext_iff]
  · simp [emitVtsTypeDeclarations, emitVtsTypeDeclarations.kName, Kind.toNat,
      Formatter.write_eq, String.ext_iff]
  · simp [emitVtsTypeDeclarations, emitVtsTypeDeclarations.kName, Kind.toNat,
      Formatter.write_eq, String.ext_iff]
  · rw [getCppType_fst KIND_BOOL sm extra flag]
    decide
  · rw [getCppType_fst k sm extra flag]
    cases k <;> decide

/-- C14. `emitVtsTypeDeclarations` is infallible: for every kind and every
prior content of the sink it returns the success status `OK`. -/
theorem emitVtsTypeDeclarations_returns_OK (k : Kind) (out : Formatter) :
    (emitVtsTypeDeclarations ⟨k⟩ out).1 = status_t.OK := by
  rfl

/-- C15. The managed primitive has the width of the kind: with the widths
byte 1, short 2, int 4, long 8, float 4, double 8, for every kind other than
BOOL the width of `getJavaType` is the size given by `getAlignmentAndSize`; in
particular UINT8 and INT8 are `byte` of size 1, UINT16 and INT16 `short` of
size 2, and OPAQUE_POINTER `long` of size 8. -/
theorem getJavaType_width_eq_size (k : Kind) (hk : k ≠ KIND_BOOL) :
    Spec.javaWidth (ScalarType.mk k).getJavaType
      = some (ScalarType.mk k).getAlignmentAndSize.2 := by
  revert hk
  cases k <;> decide

/-- Witness of C15: OPAQUE_POINTER is `long`, of width 8. -/
theorem getJavaType_width_eq_size_witness :
    KIND_OPAQUE_POINTER ≠ KIND_BOOL
    ∧ Spec.javaWidth (ScalarType.mk KIND_OPAQUE_POINTER).getJavaType
      = some (ScalarType.mk KIND_OPAQUE_POINTER).getAlignmentAndSize.2 :=
  ⟨by decide, getJavaType_width_eq_size KIND_OPAQUE_POINTER (by decide)⟩

/-- C16. `getCppType` depends only on the kind: whatever the storage mode, the
flag and the prior content of `extra`, it returns the native name of the kind
and leaves `extra` empty. -/
theorem getCppType_depends_only_on_kind {StorageMode StorageMode2 : Type} (k : Kind)
    (sm1 : StorageMode) (sm2 : StorageMode2) (extra1 extra2 : String)
    (flag1 flag2 : Bool) :
    getCppType ⟨k⟩ sm1 extra1 flag1 = getCppType ⟨k⟩ sm2 extra2 flag2
    ∧ (getCppType ⟨k⟩ sm1 extra1 flag1).1 = Spec.nativeTypeName k
    ∧ (getCppType ⟨k⟩ sm1 extra1 flag1).2 = "" := by
  refine ⟨rfl, ?_, rfl⟩
  cases k <;> rfl

/-- C17. Every emission operation only appends to the sink, and what it
appends is a function of the kind and of the arguments of the call: provided
`handleError` appends a text determined by the mode, each of
`emitReaderWriter`, `emitReaderWriterWithCast`, `emitJavaFieldReaderWriter` and
`emitVtsTypeDeclarations` leaves the prior content of the sink followed by one
fragment that is the same for every prior content. -/
theorem emission_appends_fragment {ErrorMode : Type}
    (handleError : Formatter → ErrorMode → Formatter) (errorText : ErrorMode → String)
    (happend : ∀ out mode, handleError out mode = out <<< errorText mode)
    (k : Kind) (name parcelObj : String) (parcelObjIsPointer isReader : Bool)
    (mode : ErrorMode) (needsCast : Bool) (blobName fieldName offset : String)
    (isJavaReader : Bool) :
    (∃ frag : String, ∀ out : Formatter,
      emitReaderWriter handleError ⟨k⟩ out name parcelObj parcelObjIsPointer isReader mode
        = out <<< frag)
    ∧ (∃ frag : String, ∀ out : Formatter,
      emitReaderWriterWithCast handleError ⟨k⟩ out name parcelObj parcelObjIsPointer
        isReader mode needsCast = out <<< frag)
    ∧ (∃ frag : String, ∀ out : Formatter,
      emitJavaFieldReaderWriter ⟨k⟩ out blobName fieldName offset isJavaReader
        = out <<< frag)
    ∧ (∃ frag : String, ∀ out : Formatter,
      (emitVtsTypeDeclarations ⟨k⟩ out).2 = out <<< frag) := by
  refine ⟨?_, ?_, ?_, ?_⟩
  · refine ⟨Spec.serializationStatement k name parcelObj parcelObjIsPointer isReader
      (if false then Spec.castText (getCppType ⟨k⟩ () "" false).1 isReader else "")
      ++ errorText mode, fun out => ?_⟩
    rw [emitReaderWriter, emitReaderWriterWithCast_eq, happend, Formatter.write_write]
  · refine ⟨Spec.serializationStatement k name parcelObj parcelObjIsPointer isReader
      (if needsCast then Spec.castText (getCppType ⟨k⟩ () "" false).1 isReader else "")
      ++ errorText mode, fun out => ?_⟩
    rw [emitReaderWriterWithCast_eq, happend, Formatter.write_write]
  · cases isJavaReader
    · refine ⟨blobName ++ ".put" ++ (ScalarType.mk k).getJavaSuffix ++ "(" ++ offset
        ++ ", " ++ fieldName ++ ");\n", fun out => ?_⟩
      simp [emitJavaFieldReaderWriter, Formatter.write_eq, String.ext_iff]
    · refine ⟨fieldName ++ " = " ++ blobName ++ ".get" ++ (ScalarType.mk k).getJavaSuffix
        ++ "(" ++ offset ++ ");\n", fun out => ?_⟩
      simp [emitJavaFieldReaderWriter, Formatter.write_eq, String.ext_iff]
  · refine ⟨"type: TYPE_SCALAR\nscalar_type: \""
      ++ emitVtsTypeDeclarations.kName.getD k.toNat "" ++ "\"\n", fun out => ?_⟩
    simp [emitVtsTypeDeclarations, Formatter.write_eq, String.ext_iff]

/-- Witness of C17: a `handleError` that appends `E` whatever the mode. -/
theorem emission_appends_fragment_witness :
    (∀ (out : Formatter) (mode : Unit),
        (fun (o : Formatter) (_ : Unit) => o <<< "E") out mode
          = out <<< (fun (_ : Unit) => "E") mode)
    ∧ ∃ frag : String, ∀ out : Formatter,
      emitReaderWriterWithCast (fun (o : Formatter) (_ : Unit) => o <<< "E")
        ⟨KIND_INT32⟩ out "v" "parcel" false true () true = out <<< frag :=
  ⟨fun _ _ => rfl,
    (emission_appends_fragment (fun (o : Formatter) (_ : Unit) => o <<< "E")
      (fun (_ : Unit) => "E") (fun _ _ => rfl) KIND_INT32 "v" "parcel" false true ()
      true "b" "f" "o" true).2.1⟩

end android
